import Mathlib

/-
  Shallow embedding of the Graph_RAG repository (src/database.py, src/utils.py,
  src/app.py) used to check the natural-language specification against the code.

  Conventions:
  - SQLite machine state is modelled explicitly: the query_history table is a
    list of rows in insertion order plus the AUTOINCREMENT counter, which SQLite
    keeps in sqlite_sequence and which survives DELETE.
  - Python functions that can raise are modelled with an explicit PyResult.
  - The module-level import list of utils.py is part of the model, because the
    file references the names subprocess and yaml without importing them.
-/

namespace GraphRAG

/-! ## src/database.py : data model -/

/-- Model of a Python datetime value at the precision used by the store. -/
structure PyDateTime where
  year : Nat
  month : Nat
  day : Nat
  hour : Nat
  minute : Nat
deriving DecidableEq

/-- Zero-padding to two digits, as strftime does for %m %d %H %M. -/
def pad2 (n : Nat) : String :=
  if n < 10 then "0" ++ toString n else toString n

/-- Model of datetime.now().strftime with the format used by save_query:
year, month, day, then hour and minute separated by a colon. -/
def strftimeYmdHM (t : PyDateTime) : String :=
  toString t.year ++ "-" ++ pad2 t.month ++ "-" ++ pad2 t.day ++ " "
    ++ pad2 t.hour ++ ":" ++ pad2 t.minute

/-- One row of the query_history table (columns selected by get_all_queries). -/
structure QueryRecord where
  id : Nat
  timestamp : String
  query : String
  method : String
  response : String
deriving DecidableEq

/-- The SQLite state owned by the store: rows of query_history in insertion
order, plus the AUTOINCREMENT counter. With the AUTOINCREMENT keyword the
counter lives in sqlite_sequence and is not reset by DELETE. -/
structure DBState where
  rows : List QueryRecord
  nextId : Nat
deriving DecidableEq

/-- The state after init_db on a fresh database file: no rows, ids start at 1. -/
def initDB : DBState := { rows := [], nextId := 1 }

/-- save_query: INSERT INTO query_history (timestamp, query, method, response),
with the timestamp rendered from the wall clock; returns cursor.lastrowid. -/
def save_query (now : PyDateTime) (q m r : String) (s : DBState) : Nat × DBState :=
  let row : QueryRecord :=
    { id := s.nextId, timestamp := strftimeYmdHM now, query := q, method := m, response := r }
  (s.nextId, { rows := s.rows ++ [row], nextId := s.nextId + 1 })

/-- The ORDER BY id DESC comparator of get_all_queries. -/
def idGe (a b : QueryRecord) : Prop := b.id ≤ a.id

instance : DecidableRel idGe := fun a b => inferInstanceAs (Decidable (b.id ≤ a.id))

instance : IsTotal QueryRecord idGe := ⟨fun a b => Nat.le_total b.id a.id⟩

instance : IsTrans QueryRecord idGe := ⟨fun _ _ _ hab hbc => Nat.le_trans hbc hab⟩

/-- get_all_queries: SELECT ... FROM query_history ORDER BY id DESC. -/
def get_all_queries (s : DBState) : List QueryRecord :=
  List.insertionSort idGe s.rows

/-- clear_history: DELETE FROM query_history. The AUTOINCREMENT counter in
sqlite_sequence is not touched by DELETE. -/
def clear_history (s : DBState) : DBState :=
  { rows := [], nextId := s.nextId }

/-- get_query_count: SELECT COUNT(*) FROM query_history. -/
def get_query_count (s : DBState) : Nat :=
  s.rows.length

/-- The store operations a caller can interleave. -/
inductive Op where
  | save (now : PyDateTime) (q m r : String)
  | clear
deriving DecidableEq

/-- Effect of one operation on the store state. -/
def applyOp (s : DBState) : Op → DBState
  | .save now q m r => (save_query now q m r s).2
  | .clear => clear_history s

/-- Running a sequence of operations against the store. -/
def runOps (s : DBState) (ops : List Op) : DBState :=
  ops.foldl applyOp s

/-- The ids handed back by the store across a sequence of operations. -/
def assignedIds : DBState → List Op → List Nat
  | _, [] => []
  | s, .save now q m r :: rest =>
      (save_query now q m r s).1 :: assignedIds (save_query now q m r s).2 rest
  | s, .clear :: rest => assignedIds (clear_history s) rest

/-- Arguments of one save_query call. -/
structure SaveReq where
  now : PyDateTime
  q : String
  m : String
  r : String

/-- A save_query call as a store operation. -/
def saveOp (x : SaveReq) : Op := .save x.now x.q x.m x.r

/-- Store invariant maintained by every operation: the counter is positive,
bounds every stored id strictly, and stored ids strictly increase in
insertion order. -/
def Inv (s : DBState) : Prop :=
  0 < s.nextId ∧ (∀ x ∈ s.rows, x.id < s.nextId) ∧
    (s.rows.map QueryRecord.id).Pairwise (· < ·)

/-! ## src/app.py : progress-line classifier (Start Indexing handler) -/

/-- Python str.lower on one character, restricted to the ASCII range, which
is all the classifier keywords use. -/
def lowerChar (c : Char) : Char :=
  if 65 ≤ c.toNat ∧ c.toNat ≤ 90 then Char.ofNat (c.toNat + 32) else c

/-- Python str.lower restricted to the ASCII range. -/
def lowerStr (s : String) : String := ⟨s.data.map lowerChar⟩

/-- Whether the first list is an initial segment of the second. -/
def beginsWith : List Char → List Char → Bool
  | [], _ => true
  | _ :: _, [] => false
  | a :: as, b :: bs => a = b && beginsWith as bs

/-- Whether the first list occurs contiguously inside the second; this is the
Python membership test on strings, modelled on the character lists. -/
def containsSub (needle : List Char) : List Char → Bool
  | [] => beginsWith needle []
  | c :: t => beginsWith needle (c :: t) || containsSub needle t

/-- Python substring membership test on strings. -/
def inStr (needle hay : String) : Bool :=
  containsSub needle.toList hay.toList

/-- The if/elif chain over line.lower() in the Start Indexing handler of
src/app.py: first matching branch reports (percentage, label) to the
progress bar; a line with no match reports nothing. -/
def classify_line (line : String) : Option (Nat × String) :=
  let ll := lowerStr line
  if inStr "load_input" ll then some (10, "Loading documents...")
  else if inStr "text_units" ll then some (20, "Creating text units...")
  else if inStr "extract_graph" ll && inStr "starting" ll then
    some (30, "Extracting entities (slow)...")
  else if inStr "extract graph progress" ll then some (50, "Extracting graph...")
  else if inStr "finalize_graph" ll then some (60, "Finalizing graph...")
  else if inStr "communities" ll then some (70, "Creating communities...")
  else if inStr "community_reports" ll then some (80, "Generating reports...")
  else if inStr "embeddings" ll then some (90, "Generating embeddings...")
  else if inStr "pipeline complete" ll then some (100, "Complete!")
  else none

/-- Position (0 to 8) of the branch of the if/elif chain that fires on a
line, if any: the priority index of the matched milestone. -/
def milestone_idx (line : String) : Option Nat :=
  let ll := lowerStr line
  if inStr "load_input" ll then some 0
  else if inStr "text_units" ll then some 1
  else if inStr "extract_graph" ll && inStr "starting" ll then some 2
  else if inStr "extract graph progress" ll then some 3
  else if inStr "finalize_graph" ll then some 4
  else if inStr "communities" ll then some 5
  else if inStr "community_reports" ll then some 6
  else if inStr "embeddings" ll then some 7
  else if inStr "pipeline complete" ll then some 8
  else none

/-- The percentage attached to each branch position of the chain. -/
def milestonePct : Nat → Nat
  | 0 => 10
  | 1 => 20
  | 2 => 30
  | 3 => 50
  | 4 => 60
  | 5 => 70
  | 6 => 80
  | 7 => 90
  | _ => 100

/-- The successive percentages the progress bar is set to while a list of
log lines streams by: lines with no matching branch leave the bar alone. -/
def reported_percents (lines : List String) : List Nat :=
  lines.filterMap (fun l => (classify_line l).map Prod.fst)

/-! ## src/utils.py : module imports, run_query, update_settings -/

/-- The module-level import list of src/utils.py. Neither subprocess nor
yaml appears in it, although both names are referenced in function bodies. -/
def utilsImports : List String := ["os", "sys", "shutil", "requests", "pandas"]

/-- Outcome of the child process started by subprocess.run in run_query. -/
inductive ProcOutcome where
  | timeout
  | completed (returncode : Int) (stdoutText stderrText : String)
deriving DecidableEq

/-- Result of calling a Python function: a returned value, or an exception
escaping the call (identified by its class name). -/
inductive PyResult (α : Type) where
  | ok (val : α)
  | exn (exnName : String)
deriving DecidableEq

/-- run_query in src/utils.py. The body resolves the module-level name
subprocess, which utils.py never imports, so the lookup raises NameError;
evaluating the matching clause of the first exception handler resolves
subprocess again and raises NameError once more, so the exception escapes
the call. The branch guarded on the import shows the dispatch the code
would perform if the name resolved: timeout message on timeout, stderr
behind an error marker on nonzero exit, stdout verbatim on success. -/
def run_query_py (outcome : ProcOutcome) : PyResult String :=
  if "subprocess" ∈ utilsImports then
    match outcome with
    | .timeout =>
        .ok "Query timed out. Local LLMs can be slow - try a simpler question or wait longer."
    | .completed rc out err =>
        if rc ≠ 0 then .ok ("Error: " ++ err) else .ok out
  else
    .exn "NameError"

/-- Model of the two nested model sub-documents of settings.yaml that
update_settings patches. -/
structure ModelCfg where
  model_provider : String
  auth_type : String
  api_key : String
  api_base : String
  model : String
deriving DecidableEq

/-- Model of the settings.yaml document: the two model sub-documents and the
two tunable blocks, each present or absent as in the loaded mapping. -/
structure SettingsDoc where
  default_chat_model : Option ModelCfg
  default_embedding_model : Option ModelCfg
  extract_graph_max_gleanings : Option Nat
  chunks_size_overlap : Option (Nat × Nat)
deriving DecidableEq

/-- The field overwrites the try block of update_settings performs on the
loaded document. Every overwritten value except the chat model name is a
constant baked into src/utils.py: both api_base fields become the local
Ollama endpoint, both api_key fields become the dummy key, and the
embedding model becomes nomic-embed-text. -/
def apply_settings_patch (doc : SettingsDoc) (model_name : String) : SettingsDoc :=
  { default_chat_model := doc.default_chat_model.map fun chat =>
      { chat with model_provider := "openai", auth_type := "api_key",
                  api_key := "ollama", api_base := "http://localhost:11434/v1",
                  model := model_name }
    default_embedding_model := doc.default_embedding_model.map fun embed =>
      { embed with model_provider := "openai", auth_type := "api_key",
                   api_key := "ollama", api_base := "http://localhost:11434/v1",
                   model := "nomic-embed-text" }
    extract_graph_max_gleanings := doc.extract_graph_max_gleanings.map fun _ => 0
    chunks_size_overlap := doc.chunks_size_overlap.map fun _ => (2000, 200) }

/-- The body of def update_settings(model_name) in src/utils.py, over the
file-existence flag and the loaded document. The first statement of the try
block resolves the module-level name yaml, which utils.py never imports;
the NameError is caught by the general exception handler and reported as a
failure pair, so the document on disk is never modified. (Python renders
the caught exception with the missing name in quotes.) The branch guarded
on the import shows the behaviour the code would have if yaml resolved. -/
def update_settings_fn (settingsExists : Bool) (doc : SettingsDoc) (model_name : String) :
    (Bool × String) × SettingsDoc :=
  if !settingsExists then
    ((false, "settings.yaml not found. Run Init first."), doc)
  else if "yaml" ∈ utilsImports then
    ((true, "Updated settings.yaml for Ollama."), apply_settings_patch doc model_name)
  else
    ((false, "Failed to update settings: name yaml is not defined"), doc)

/-- Number of parameters of def update_settings in src/utils.py: a single
model_name parameter with a default. -/
def update_settings_param_count : Nat := 1

/-- A call to update_settings with positional arguments, as the Update
Settings button handler in src/app.py performs with three of them
(model name, api base, api key). Python raises TypeError before the body
runs when more positional arguments are supplied than the def accepts. -/
def call_update_settings (args : List String) (settingsExists : Bool) (doc : SettingsDoc) :
    PyResult ((Bool × String) × SettingsDoc) :=
  if args.length ≤ update_settings_param_count then
    .ok (update_settings_fn settingsExists doc (args.headD "gpt-oss:20b-cloud"))
  else
    .exn "TypeError"

/-! ## src/utils.py : artifact loader -/

/-- A loaded columnar table, abstracted by its row count; pd.DataFrame()
is the table with zero rows. -/
structure DataFrame where
  rowCount : Nat
deriving DecidableEq

/-- The three logical datasets load_parquet_files returns. -/
structure LoadedData where
  entities : DataFrame
  relationships : DataFrame
  reports : DataFrame
deriving DecidableEq

/-- The filesystem facts the artifact loader consults: existence, directory
test, directory listing, modification time, and the parquet reader, which
either yields a table or raises (modelled as none). -/
structure FileSys where
  pathExists : String → Bool
  isDir : String → Bool
  listdir : String → List String
  mtime : String → Nat
  readParquet : String → Option DataFrame

/-- os.path.join on POSIX for the relative paths the loader builds. -/
def joinPath (a b : String) : String := a ++ "/" ++ b

/-- The fixed project root of src/utils.py. -/
def RAG_DIR : String := "rag_project"

/-- The output directory probed by get_latest_output_dir. -/
def output_base : String := joinPath RAG_DIR "output"

/-- get_latest_output_dir in src/utils.py: none when the output root is
absent; the root itself when entities.parquet sits directly in it; else the
most recently modified immediate subdirectory (first of the maxima, as
Python max does), preferring its artifacts subdirectory when present; none
when there is no subdirectory at all. -/
def get_latest_output_dir (fs : FileSys) : Option String :=
  if !fs.pathExists output_base then none
  else if fs.pathExists (joinPath output_base "entities.parquet") then some output_base
  else
    match ((fs.listdir output_base).map (joinPath output_base)).filter fs.isDir with
    | [] => none
    | d :: ds =>
      let latest := ds.foldl (fun best x => if fs.mtime best < fs.mtime x then x else best) d
      let artifacts_path := joinPath latest "artifacts"
      some (if fs.pathExists artifacts_path then artifacts_path else latest)

/-- The per-dataset loop of load_parquet_files: try each filename candidate
in order, read the first one that exists, swallow a read failure and move
on, and fall back to the empty table when nothing loads. -/
def tryPatterns (fs : FileSys) (dir : String) : List String → DataFrame
  | [] => ⟨0⟩
  | p :: ps =>
    if fs.pathExists (joinPath dir p) then
      match fs.readParquet (joinPath dir p) with
      | some df => df
      | none => tryPatterns fs dir ps
    else tryPatterns fs dir ps

/-- load_parquet_files in src/utils.py: none when no output directory
resolves, else the three datasets located by their candidate filenames. -/
def load_parquet_files (fs : FileSys) : Option LoadedData :=
  match get_latest_output_dir fs with
  | none => none
  | some dir =>
    some { entities := tryPatterns fs dir ["entities.parquet", "create_final_entities.parquet"]
           relationships :=
             tryPatterns fs dir ["relationships.parquet", "create_final_relationships.parquet"]
           reports :=
             tryPatterns fs dir
               ["community_reports.parquet", "create_final_community_reports.parquet"] }

/-- A filesystem whose output root holds a single relationships.parquet
file and nothing else: the flat layout of the C5 scenario. -/
def flatFS : FileSys where
  pathExists := fun p =>
    p = output_base || p = joinPath output_base "relationships.parquet"
  isDir := fun p => p = output_base
  listdir := fun p => if p = output_base then ["relationships.parquet"] else []
  mtime := fun _ => 0
  readParquet := fun p =>
    if p = joinPath output_base "relationships.parquet" then some ⟨3⟩ else none

/-- A filesystem whose output root holds one timestamped subdirectory that
contains a single relationships.parquet file and nothing else. -/
def subdirFS : FileSys where
  pathExists := fun p =>
    p = output_base || p = joinPath (joinPath output_base "run1") "relationships.parquet"
  isDir := fun p => p = output_base || p = joinPath output_base "run1"
  listdir := fun p => if p = output_base then ["run1"] else []
  mtime := fun _ => 0
  readParquet := fun p =>
    if p = joinPath (joinPath output_base "run1") "relationships.parquet" then some ⟨2⟩
    else none

/-! ## Store lemmas -/

theorem inv_initDB : Inv initDB := by
  refine ⟨by decide, ?_, ?_⟩ <;> simp [initDB]

theorem inv_save (s : DBState) (h : Inv s) (now : PyDateTime) (q m r : String) :
    Inv (save_query now q m r s).2 := by
  obtain ⟨hpos, hbnd, hpw⟩ := h
  refine ⟨Nat.lt_succ_of_lt hpos, ?_, ?_⟩
  · intro x hx
    simp only [save_query, List.mem_append, List.mem_singleton] at hx
    rcases hx with hx | hx
    · exact Nat.lt_succ_of_lt (hbnd x hx)
    · simp [hx, save_query]
  · simp only [save_query, List.map_append, List.map_cons, List.map_nil]
    rw [List.pairwise_append]
    refine ⟨hpw, by simp, ?_⟩
    intro i hi j hj
    simp only [List.mem_singleton] at hj
    subst hj
    simp only [List.mem_map] at hi
    obtain ⟨x, hx, rfl⟩ := hi
    exact hbnd x hx

theorem inv_clear (s : DBState) (h : Inv s) : Inv (clear_history s) :=
  ⟨h.1, by simp [clear_history], by simp [clear_history]⟩

theorem inv_applyOp (s : DBState) (op : Op) (h : Inv s) : Inv (applyOp s op) := by
  cases op with
  | save now q m r => exact inv_save s h now q m r
  | clear => exact inv_clear s h

theorem inv_runOps (s : DBState) (ops : List Op) (h : Inv s) : Inv (runOps s ops) := by
  induction ops generalizing s with
  | nil => exact h
  | cons op rest ih => exact ih _ (inv_applyOp s op h)

theorem getAll_pairwise_gt (s : DBState)
    (h : (s.rows.map QueryRecord.id).Pairwise (· < ·)) :
    ((get_all_queries s).map QueryRecord.id).Pairwise (· > ·) := by
  have hperm : List.Perm (get_all_queries s) s.rows := List.perm_insertionSort idGe s.rows
  have hmap : List.Perm ((get_all_queries s).map QueryRecord.id)
      (s.rows.map QueryRecord.id) := hperm.map _
  have hnd : (s.rows.map QueryRecord.id).Nodup := h.imp Nat.ne_of_lt
  have hnd2 : ((get_all_queries s).map QueryRecord.id).Nodup := hmap.nodup_iff.mpr hnd
  have hsorted : List.Pairwise idGe (get_all_queries s) :=
    List.sorted_insertionSort idGe s.rows
  have hsorted2 : ((get_all_queries s).map QueryRecord.id).Pairwise (fun a b => b ≤ a) :=
    List.pairwise_map.mpr hsorted
  exact (hsorted2.and hnd2).imp fun hab => Nat.lt_of_le_of_ne hab.1 (Ne.symm hab.2)

theorem head_sort_max (l : List QueryRecord) (x : QueryRecord)
    (h : ∀ y ∈ l, y.id < x.id) :
    (List.insertionSort idGe (l ++ [x])).head? = some x := by
  have hperm := List.perm_insertionSort idGe (l ++ [x])
  have hsorted := List.sorted_insertionSort idGe (l ++ [x])
  cases hL : List.insertionSort idGe (l ++ [x]) with
  | nil =>
    rw [hL] at hperm
    have hlen := hperm.length_eq
    simp at hlen
  | cons a t =>
    rw [hL] at hperm hsorted
    have ha : a ∈ l ++ [x] := hperm.subset (List.mem_cons_self a t)
    rcases List.mem_append.mp ha with hal | hax
    · exfalso
      have hx : x ∈ a :: t := hperm.symm.subset (by simp)
      rcases List.mem_cons.mp hx with heq | hmem
      · subst heq
        exact absurd (h x hal) (Nat.lt_irrefl x.id)
      · have hrel : idGe a x := List.rel_of_sorted_cons hsorted x hmem
        have hlt := h a hal
        unfold idGe at hrel
        omega
    · simp only [List.mem_singleton] at hax
      subst hax
      rfl

theorem save_head (s : DBState) (hInv : Inv s) (now : PyDateTime) (q m r : String) :
    (get_all_queries (save_query now q m r s).2).head? =
      some ⟨s.nextId, strftimeYmdHM now, q, m, r⟩ := by
  obtain ⟨_, hbnd, _⟩ := hInv
  have hrows : (save_query now q m r s).2.rows =
      s.rows ++ [⟨s.nextId, strftimeYmdHM now, q, m, r⟩] := rfl
  rw [get_all_queries, hrows]
  exact head_sort_max s.rows _ fun y hy => hbnd y hy

theorem strftime_ne_empty (t : PyDateTime) : strftimeYmdHM t ≠ "" := by
  intro hcontra
  have h1 : (strftimeYmdHM t).length = 0 := by rw [hcontra]; rfl
  have hd : ("-" : String).length = 1 := rfl
  have hs : (" " : String).length = 1 := rfl
  have hc : (":" : String).length = 1 := rfl
  rw [strftimeYmdHM] at h1
  simp only [String.length_append, hd, hs, hc] at h1
  omega

theorem rows_after_saves (xs : List SaveReq) (s : DBState) :
    (runOps s (xs.map saveOp)).rows.length = s.rows.length + xs.length := by
  induction xs generalizing s with
  | nil => simp [runOps]
  | cons x rest ih =>
    show (runOps (applyOp s (saveOp x)) (rest.map saveOp)).rows.length
      = s.rows.length + (x :: rest).length
    rw [ih]
    have hone : (applyOp s (saveOp x)).rows.length = s.rows.length + 1 := by
      simp [applyOp, saveOp, save_query]
    rw [hone, List.length_cons]
    omega

theorem assignedIds_lb (ops : List Op) :
    ∀ s : DBState, ∀ i ∈ assignedIds s ops, s.nextId ≤ i := by
  induction ops with
  | nil => intro s i hi; simp [assignedIds] at hi
  | cons op rest ih =>
    intro s i hi
    cases op with
    | save now q m r =>
      rw [assignedIds] at hi
      rcases List.mem_cons.mp hi with rfl | hmem
      · exact Nat.le_refl _
      · exact Nat.le_of_succ_le (ih _ i hmem)
    | clear =>
      rw [assignedIds] at hi
      exact ih (clear_history s) i hi

theorem assignedIds_pairwise (ops : List Op) :
    ∀ s : DBState, (assignedIds s ops).Pairwise (· < ·) := by
  induction ops with
  | nil => intro s; simp [assignedIds]
  | cons op rest ih =>
    intro s
    cases op with
    | save now q m r =>
      rw [assignedIds]
      refine List.pairwise_cons.mpr ⟨?_, ih _⟩
      intro j hj
      exact Nat.lt_of_succ_le (assignedIds_lb rest _ j hj)
    | clear =>
      rw [assignedIds]
      exact ih _

/-! ## Claim theorems for the history store -/

/-- Claim C1: for every sequence of N successful save_query calls on an
initially empty store, get_query_count returns N and get_all_queries returns
exactly N records ordered by strictly decreasing id (newest id first). -/
theorem save_sequence_count_and_order (xs : List SaveReq) :
    get_query_count (runOps initDB (xs.map saveOp)) = xs.length ∧
    (get_all_queries (runOps initDB (xs.map saveOp))).length = xs.length ∧
    ((get_all_queries (runOps initDB (xs.map saveOp))).map QueryRecord.id).Pairwise
      (· > ·) := by
  have hlen : (runOps initDB (xs.map saveOp)).rows.length = xs.length := by
    have h := rows_after_saves xs initDB
    simpa [initDB] using h
  refine ⟨hlen, ?_, ?_⟩
  · rw [get_all_queries, (List.perm_insertionSort idGe _).length_eq]
    exact hlen
  · exact getAll_pairwise_gt _ (inv_runOps initDB (xs.map saveOp) inv_initDB).2.2

/-- Claim C6: across every interleaving of save_query and clear_history
calls starting from the empty store, the ids handed out by the store are
strictly increasing in call order, hence never reused, even after earlier
rows or all rows have been deleted. -/
theorem ids_strictly_increasing_never_reused (ops : List Op) :
    (assignedIds initDB ops).Pairwise (· < ·) ∧ (assignedIds initDB ops).Nodup :=
  ⟨assignedIds_pairwise ops initDB, (assignedIds_pairwise ops initDB).imp Nat.ne_of_lt⟩

/-- Claim C7: after save_query with question Q1, method local and answer A1
on any reachable store, the first element of get_all_queries carries those
three fields verbatim, the positive id the store returned, and the non-empty
store-assigned timestamp. -/
theorem round_trip_first_record (ops : List Op) (now : PyDateTime) :
    (get_all_queries (save_query now "Q1" "local" "A1" (runOps initDB ops)).2).head? =
      some ⟨(save_query now "Q1" "local" "A1" (runOps initDB ops)).1,
            strftimeYmdHM now, "Q1", "local", "A1"⟩ ∧
    0 < (save_query now "Q1" "local" "A1" (runOps initDB ops)).1 ∧
    strftimeYmdHM now ≠ "" := by
  have hInv := inv_runOps initDB ops inv_initDB
  exact ⟨save_head _ hInv now "Q1" "local" "A1", hInv.1, strftime_ne_empty now⟩

/-- Claim C9: clear_history returns normally on any prior store content and
get_query_count immediately afterwards returns 0. -/
theorem clear_then_count_zero (s : DBState) : get_query_count (clear_history s) = 0 := rfl

/-- Claim C10: the store does no content validation: for all strings for
query, method and response, the empty string included, save_query succeeds
with a positive id and the record comes back verbatim from get_all_queries. -/
theorem save_accepts_any_strings (ops : List Op) (now : PyDateTime) (q m r : String) :
    0 < (save_query now q m r (runOps initDB ops)).1 ∧
    (get_all_queries (save_query now q m r (runOps initDB ops)).2).head? =
      some ⟨(save_query now q m r (runOps initDB ops)).1, strftimeYmdHM now, q, m, r⟩ := by
  have hInv := inv_runOps initDB ops inv_initDB
  exact ⟨hInv.1, save_head _ hInv now q m r⟩

/-! ## Classifier lemmas and claims -/

theorem classify_eq_idx_pct (l : String) :
    (classify_line l).map Prod.fst = (milestone_idx l).map milestonePct := by
  simp only [classify_line, milestone_idx]
  split_ifs <;> rfl

theorem milestonePct_le_100 (i : Nat) : milestonePct i ≤ 100 := by
  match i with
  | 0 | 1 | 2 | 3 | 4 | 5 | 6 | 7 => decide
  | n + 8 => exact Nat.le_refl _

theorem milestonePct_mono {i j : Nat} (h : i ≤ j) :
    milestonePct i ≤ milestonePct j := by
  by_cases hi : i < 8
  · by_cases hj : j < 8
    · interval_cases i <;> interval_cases j <;> decide
    · obtain ⟨n, rfl⟩ : ∃ n, j = n + 8 := ⟨j - 8, by omega⟩
      exact milestonePct_le_100 i
  · obtain ⟨n, rfl⟩ : ∃ n, i = n + 8 := ⟨i - 8, by omega⟩
    obtain ⟨m, rfl⟩ : ∃ m, j = m + 8 := ⟨j - 8, by omega⟩
    exact Nat.le_refl _

/-- Counterexample to claim C3 as stated: a line that does contain the
Extract Graph Progress keyword is classified to the 20 percent milestone,
not the 50 percent one, because a higher-priority keyword also occurs in
the surrounding text and the first matching branch of the if/elif chain
wins. -/
theorem extract_progress_keyword_overridden :
    inStr "extract graph progress" (lowerStr "text_units Extract Graph Progress") = true ∧
    classify_line "text_units Extract Graph Progress" =
      some (20, "Creating text units...") ∧
    classify_line "text_units Extract Graph Progress" ≠
      some (50, "Extracting graph...") := by
  decide

/-- Claim C3 as amended: a line containing the Extract Graph Progress
keyword (any case) maps to the 50 percent milestone, and a line containing
the Pipeline complete keyword (any case) maps to the 100 percent milestone,
provided no keyword of an earlier branch of the chain also occurs in the
line; the first matching branch in the fixed chain order wins. -/
theorem classifier_milestones (line₁ line₂ : String)
    (g1 : inStr "extract graph progress" (lowerStr line₁) = true)
    (g2 : inStr "load_input" (lowerStr line₁) = false)
    (g3 : inStr "text_units" (lowerStr line₁) = false)
    (g4 : (inStr "extract_graph" (lowerStr line₁) && inStr "starting" (lowerStr line₁))
      = false)
    (k1 : inStr "pipeline complete" (lowerStr line₂) = true)
    (k2 : inStr "load_input" (lowerStr line₂) = false)
    (k3 : inStr "text_units" (lowerStr line₂) = false)
    (k4 : (inStr "extract_graph" (lowerStr line₂) && inStr "starting" (lowerStr line₂))
      = false)
    (k5 : inStr "extract graph progress" (lowerStr line₂) = false)
    (k6 : inStr "finalize_graph" (lowerStr line₂) = false)
    (k7 : inStr "communities" (lowerStr line₂) = false)
    (k8 : inStr "community_reports" (lowerStr line₂) = false)
    (k9 : inStr "embeddings" (lowerStr line₂) = false) :
    classify_line line₁ = some (50, "Extracting graph...") ∧
    classify_line line₂ = some (100, "Complete!") := by
  constructor
  · simp only [classify_line]
    simp [g1, g2, g3, g4]
  · simp only [classify_line]
    simp [k1, k2, k3, k4, k5, k6, k7, k8, k9]

/-- Witness for the amended claim C3 at two concrete log lines. -/
theorem classifier_milestones_witness :
    classify_line "Extract Graph Progress" = some (50, "Extracting graph...") ∧
    classify_line "Pipeline complete" = some (100, "Complete!") :=
  classifier_milestones "Extract Graph Progress" "Pipeline complete"
    (by decide) (by decide) (by decide) (by decide) (by decide) (by decide)
    (by decide) (by decide) (by decide) (by decide) (by decide) (by decide)
    (by decide)

/-- Counterexample to claim C8 as stated: the classifier is stateless per
line, so a stream whose keywords arrive out of pipeline order makes the
reported percentage drop from a previously reported milestone. -/
theorem reported_percent_can_decrease :
    reported_percents ["Pipeline complete", "load_input docs"] = [100, 10] ∧
    ¬ List.Chain' (· ≤ ·) (reported_percents ["Pipeline complete", "load_input docs"]) := by
  have hval : reported_percents ["Pipeline complete", "load_input docs"] = [100, 10] := by
    decide
  refine ⟨hval, ?_⟩
  intro h
  rw [hval] at h
  have hle : (100 : Nat) ≤ 10 := (List.chain'_cons.mp h).1
  omega

/-- Claim C8 as amended: per line the classifier reports the percentage of
the first matching branch, and the branch percentages increase along the
chain, so across a stream whose matched branch positions are non-decreasing
(as in an in-order pipeline log) the reported percentages never decrease;
nothing enforces this for out-of-order streams. -/
theorem reported_monotone_of_ordered (lines : List String)
    (h : List.Chain' (· ≤ ·) (lines.filterMap milestone_idx)) :
    List.Chain' (· ≤ ·) (reported_percents lines) := by
  have heq : reported_percents lines
      = (lines.filterMap milestone_idx).map milestonePct := by
    rw [List.map_filterMap]
    simp only [reported_percents, classify_eq_idx_pct]
  rw [heq, List.chain'_map]
  exact h.imp fun a b hab => milestonePct_mono hab

/-- Witness for the amended claim C8 at a concrete in-order stream. -/
theorem reported_monotone_witness :
    List.Chain' (· ≤ ·) (reported_percents ["load_input", "Pipeline complete"]) :=
  reported_monotone_of_ordered ["load_input", "Pipeline complete"] (by
    rw [show List.filterMap milestone_idx ["load_input", "Pipeline complete"] = [0, 8]
      from by decide]
    exact List.chain'_cons.mpr ⟨by omega, List.chain'_singleton 8⟩)

/-! ## run_query, update_settings and artifact loader claims -/

/-- Claim C2, against the code: run_query never returns on any child
process outcome; the reference to the unimported module name subprocess
raises NameError out of the call, both from the try block and from the
evaluation of the timeout handler clause, contradicting the specified
timeout, error and success returns. -/
theorem run_query_always_raises (outcome : ProcOutcome) :
    run_query_py outcome = PyResult.exn "NameError" := rfl

/-- Claim C4, against the code: the Update Settings handler of src/app.py
passes three positional arguments (model, endpoint, key) to a def that
accepts one, so the call raises TypeError; and even the one-argument call
reports failure and leaves the document untouched, because the body
references the unimported module name yaml. -/
theorem update_settings_call_fails (mn ep key : String) (doc : SettingsDoc) :
    call_update_settings [mn, ep, key] true doc = PyResult.exn "TypeError" ∧
    (update_settings_fn true doc mn).2 = doc ∧
    (update_settings_fn true doc mn).1.1 = false :=
  ⟨rfl, rfl, rfl⟩

/-- Counterexample to claim C5 as stated: an output root that holds only a
relationships.parquet file, flat with no subdirectory, makes the loader
return no data at all, because directory resolution recognises the flat
layout only by the presence of entities.parquet and finds no subdirectory
to fall back to. -/
theorem flat_relationships_only_returns_none :
    flatFS.pathExists (joinPath output_base "relationships.parquet") = true ∧
    flatFS.pathExists (joinPath output_base "entities.parquet") = false ∧
    flatFS.pathExists (joinPath output_base "community_reports.parquet") = false ∧
    load_parquet_files flatFS = none := by
  decide

/-- Claim C5 as amended: when the resolved output location is a timestamped
subdirectory (without an artifacts subdirectory) holding only a readable
relationships file, the loader returns a populated relationships dataset
together with an empty entities dataset and an empty reports dataset,
without raising; the flat single-file layout instead resolves to no data. -/
theorem subdir_relationships_only_loads (fs : FileSys) (d : String) (df : DataFrame)
    (h1 : fs.pathExists output_base = true)
    (h2 : fs.pathExists (joinPath output_base "entities.parquet") = false)
    (h3 : fs.listdir output_base = [d])
    (h4 : fs.isDir (joinPath output_base d) = true)
    (h5 : fs.pathExists (joinPath (joinPath output_base d) "artifacts") = false)
    (h6 : fs.pathExists (joinPath (joinPath output_base d) "relationships.parquet") = true)
    (h7 : fs.readParquet (joinPath (joinPath output_base d) "relationships.parquet")
      = some df)
    (h8 : 0 < df.rowCount)
    (h9 : fs.pathExists (joinPath (joinPath output_base d) "entities.parquet") = false)
    (h10 : fs.pathExists (joinPath (joinPath output_base d) "create_final_entities.parquet")
      = false)
    (h11 : fs.pathExists (joinPath (joinPath output_base d) "community_reports.parquet")
      = false)
    (h12 : fs.pathExists
      (joinPath (joinPath output_base d) "create_final_community_reports.parquet")
      = false) :
    load_parquet_files fs = some ⟨⟨0⟩, df, ⟨0⟩⟩ ∧ 0 < df.rowCount := by
  refine ⟨?_, h8⟩
  have hdir : get_latest_output_dir fs = some (joinPath output_base d) := by
    simp [get_latest_output_dir, h1, h2, h3, h4, h5]
  rw [load_parquet_files, hdir]
  simp [tryPatterns, h6, h7, h9, h10, h11, h12]

/-- Witness for the amended claim C5 at a concrete filesystem with one
timestamped subdirectory holding a single relationships file. -/
theorem subdir_relationships_only_witness :
    load_parquet_files subdirFS = some ⟨⟨0⟩, ⟨2⟩, ⟨0⟩⟩ ∧ 0 < (2 : Nat) :=
  subdir_relationships_only_loads subdirFS "run1" ⟨2⟩ (by decide) (by decide)
    (by decide) (by decide) (by decide) (by decide) (by decide) (by decide)
    (by decide) (by decide) (by decide) (by decide)

end GraphRAG
